import Mathlib

/-!
Verification of the extractor-budget planner of `qiskit_rng`
(`qiskit_rng/generator_result.py`), a shallow embedding in Lean 4.

Python floats are modelled by `ℚ` (exact real arithmetic, as in the spec),
Python ints by `ℤ`, raw bits and bytes by `List ℤ`.  The external
collaborators imported from `qiskit_rng.utils` (`bell_value`,
`get_extractor_bits`, `h_mins`, `na_set`, `dodis_output_size`,
`hayashi_parameters`, `bitarray_to_bytes`, `generate_wsr`) are not part of
the source under verification; following the spec (§2, §6) they are opaque
collaborators, modelled as fields of an injectable `Oracles` record over
which all theorems quantify.

Each `ValueError` raise site of `get_cqc_extractor_params` is mapped to a
distinct error constructor, following the six error kinds of spec §7.  Two
extra constructors model Python runtime behaviour that is not a
`ValueError`: `zeroDivisionError` for the float division `1 / tem` when
`tem == 0.0`, and `nonTermination` for divergence of the `while` loop
(which is modelled with explicit fuel; the fuel is provably sufficient
whenever `c_max ≥ 0`).
-/

namespace QiskitRng

/-- Python `round` on an exact rational: round half to even (banker's
rounding), as Python's builtin `round` does. -/
def pyRound (q : ℚ) : ℤ :=
  if q - (⌊q⌋ : ℚ) < 1/2 then ⌊q⌋
  else if 1/2 < q - (⌊q⌋ : ℚ) then ⌊q⌋ + 1
  else if ⌊q⌋ % 2 = 0 then ⌊q⌋ else ⌊q⌋ + 1

/-- Python list slicing `xs[:k]` for an arbitrary integer `k` (a negative
`k` counts from the end, clamped at the empty list). -/
def pySlice {α : Type} (xs : List α) (k : ℤ) : List α :=
  if 0 ≤ k then xs.take k.toNat else xs.take ((xs.length : ℤ) + k).toNat

/-- Python `x or y` where `x` is an optional float: `None` and `0.0` are
falsy, any other value is returned unchanged.  This is the exact semantics
of line 122 of the source, `expected_correlator = expected_correlator or
self.mermin_correlator`. -/
def pyOrQ (x : Option ℚ) (y : ℚ) : ℚ :=
  match x with
  | none => y
  | some c => if c = 0 then y else c

/-- The distinct terminal failure kinds of `get_cqc_extractor_params`.
The first six correspond, in source order, to the six `ValueError` raise
sites (spec §7); the last two model Python runtime effects that are not
`ValueError`s (float division by zero, and divergence of the `while`
loop). -/
inductive PlannerError : Type where
  | insufficientCorrelation
  | invalidConfiguration
  | internalInvariantViolation
  | insufficientOutput
  | inputTooLarge
  | invalidSecurityParameters
  | zeroDivisionError
  | nonTermination
  deriving DecidableEq, Repr

/-- The parameter bundle returned on success (`CQCExtractorParams` of
`qiskit_rng.model`, as constructed at lines 185-192 of the source). -/
structure CQCExtractorParams : Type where
  ext1_input_num_bits : ℤ
  ext1_output_num_bits : ℤ
  ext1_raw_bytes : List ℤ
  ext1_wsr_bytes : List ℤ
  ext2_seed_num_bits : ℤ
  ext2_wsr_multiplier : ℤ
  ext2_wsr_generator : ℤ → List ℤ

/-- The external collaborators of the planner (spec §2 and §6): these
functions are imported from `qiskit_rng.utils` by the source file and are
not themselves part of the code under verification, so every theorem
quantifies over them. Field order:
`bell_value`, `get_extractor_bits` (BitFormatter), `h_mins`
(EntropyRateEstimator), `na_set` (SetSizeOracle), `dodis_output_size`
(OutputSizeOracle), `hayashi_parameters` (SecurityParameterOracle),
`bitarray_to_bytes` (ByteEncoder), `generate_wsr` (default weak source). -/
structure Oracles : Type where
  bell_value : List (List ℤ) → List (List ℤ) → ℚ × ℚ × ℚ
  get_extractor_bits : List (List ℤ) → List ℤ
  h_mins : ℚ → ℤ → ℚ → ℚ
  na_set : ℤ → ℤ
  dodis_output_size : ℤ → ℚ → ℚ → ℚ → Bool → ℤ
  hayashi_parameters : ℤ → ℚ → ℤ → ℤ → ℤ × ℚ
  bitarray_to_bytes : List ℤ → List ℤ
  generate_wsr : ℤ → List ℤ

/-- The state of a `GeneratorResult` object: the fields stored by
`__init__` (lines 60-65 of the source). -/
structure GeneratorResult : Type where
  wsr : List (List ℤ)
  raw_bits_list : List (List ℤ)
  raw_bits : List ℤ
  losing_probability : ℚ
  winning_probability : ℚ
  mermin_correlator : ℚ

/-- `GeneratorResult.__init__` (lines 38-65): store `wsr` and the raw bits
list, flatten the raw bits, and compute the Bell-value triple once via the
external `bell_value` collaborator. -/
def GeneratorResult.init (O : Oracles) (wsr : List (List ℤ))
    (raw_bits_list : List (List ℤ)) : GeneratorResult :=
  let b := O.bell_value wsr raw_bits_list
  ⟨wsr, raw_bits_list, raw_bits_list.flatten, b.1, b.2.1, b.2.2⟩

/-- `GeneratorResult.bell_values` (lines 67-73): return the stored triple. -/
def GeneratorResult.bell_values (gr : GeneratorResult) : ℚ × ℚ × ℚ :=
  (gr.losing_probability, gr.winning_probability, gr.mermin_correlator)

/-- Ghost observation record of an execution of the planner, used to state
claims about which arguments the external collaborators were invoked with.
Field order: `ext1BitsArg` (the truncated bit sequence passed to
`bitarray_to_bytes` at line 158, if that call was reached), `dodisRateArg`
(the corrected rate passed to `dodis_output_size` at line 152, if that call
was reached), `hayashiCursors` (the list of `c_pen` cursor values passed to
`hayashi_parameters` at line 180, in call order). -/
structure PlannerTrace : Type where
  ext1BitsArg : Option (List ℤ)
  dodisRateArg : Option ℚ
  hayashiCursors : List ℤ
  deriving DecidableEq, Repr

/-- The local variable `bits` of the source (line 138):
`bits = get_extractor_bits(self._raw_bits_list)`. -/
def plannerBits (O : Oracles) (gr : GeneratorResult) : List ℤ :=
  O.get_extractor_bits gr.raw_bits_list

/-- The local variable `num_bits` of the source (line 139):
`num_bits = len(bits)`. -/
def plannerNumBits (O : Oracles) (gr : GeneratorResult) : ℤ :=
  ((plannerBits O gr).length : ℤ)

/-- The local variable `rate_bt` of the source before the truncation
adjustment (lines 135-140): `losing_prob = (4-correlator)/16;
rate_bt = h_mins(losing_prob, num_bits, rate_sv)`, where `correlator` is
the effective expected correlator. -/
def plannerRateBt (O : Oracles) (gr : GeneratorResult)
    (rate_sv expected : ℚ) : ℚ :=
  O.h_mins ((4 - expected) / 16) (plannerNumBits O gr) rate_sv

/-- The local variable `n_dodis` of the source (line 144):
`n_dodis = na_set(num_bits-1)+1`. -/
def plannerN (O : Oracles) (gr : GeneratorResult) : ℤ :=
  O.na_set (plannerNumBits O gr - 1) + 1

/-- The local variable `diff` of the source (line 145):
`diff = num_bits - n_dodis`. -/
def plannerDiff (O : Oracles) (gr : GeneratorResult) : ℤ :=
  plannerNumBits O gr - plannerN O gr

/-- The reassigned `rate_bt` of the source (line 148):
`rate_bt = (num_bits*rate_bt-diff)/(num_bits-diff)`, the entropy-rate
correction after truncation. -/
def plannerRate2 (O : Oracles) (gr : GeneratorResult)
    (rate_sv expected : ℚ) : ℚ :=
  ((plannerNumBits O gr : ℚ) * plannerRateBt O gr rate_sv expected
      - (plannerDiff O gr : ℚ))
    / ((plannerNumBits O gr : ℚ) - (plannerDiff O gr : ℚ))

/-- The local variable `dodis_output_len` of the source (lines 152-153):
`dodis_output_size(n_dodis, rate_bt, rate_sv, epsilon_dodis, quantum_proof)`
with `epsilon_dodis = epsilon_sec/2` (line 143). -/
def plannerOutputLen (O : Oracles) (gr : GeneratorResult)
    (rate_sv expected epsilon_sec : ℚ) (quantum_proof : Bool) : ℤ :=
  O.dodis_output_size (plannerN O gr) (plannerRate2 O gr rate_sv expected)
    rate_sv (epsilon_sec / 2) quantum_proof

/-- The local variable `tem` of the source (line 167):
`round((1 - rate_sv) * 10**8) / 10**8`, the 8-decimal rounded complement of
the weak-source rate. -/
def tem (rate_sv : ℚ) : ℚ :=
  ((pyRound ((1 - rate_sv) * 10 ^ 8) : ℤ) : ℚ) / 10 ^ 8

/-- The local variable `c_max` of the source (line 168): `floor(1 / tem)`,
the hard cap on the number of second-stage search steps.  (In the source
this is only evaluated after the division `1 / tem` succeeded, i.e. when
`tem ≠ 0`; the planner below checks that first.) -/
def c_max (rate_sv : ℚ) : ℤ :=
  ⌊1 / tem rate_sv⌋

/-- The `while` loop of the second-stage search (source lines 174-181):

```
epsilon_hayashi = 1
c_pen = 0
c = 0
while epsilon_hayashi > epsilon_hayashi_tolerance:
    if c_pen == c_max:
        raise ValueError(...)
    c, epsilon_hayashi = hayashi_parameters(hayashi_inputs, rate_sv, c_max, c_pen)
    c_pen += 1
```

modelled with explicit fuel (`nonTermination` when the fuel runs out; the
planner supplies fuel `c_max.toNat + 1`, which is provably sufficient
whenever `0 ≤ c_max`).  Besides the loop's result (`Except`), the function
returns the ghost list of cursor values the oracle was invoked with. -/
def hayashiSearch (hp : ℤ → ℚ → ℤ → ℤ → ℤ × ℚ) (hayashi_inputs : ℤ)
    (rate_sv : ℚ) (cmax : ℤ) (tol : ℚ) :
    Nat → ℤ → ℤ → ℚ → Except PlannerError ℤ × List ℤ
  | fuel, c_pen, c, eps =>
    if eps ≤ tol then (.ok c, [])
    else
      match fuel with
      | 0 => (.error .nonTermination, [])
      | fuel + 1 =>
        if c_pen = cmax then (.error .invalidSecurityParameters, [])
        else
          let r := hp hayashi_inputs rate_sv cmax c_pen
          let rest := hayashiSearch hp hayashi_inputs rate_sv cmax tol fuel
            (c_pen + 1) r.1 r.2
          (rest.1, c_pen :: rest.2)

/-- The second-stage (Hayashi) block of the source, lines 161-183: run only
when `trusted_backend and not privacy`, otherwise the disabled sentinel
`(0, 0)` (`ext2_params = [0, 0]`, line 162).  Returns the second-stage pair
together with the ghost cursor trace. -/
def ext2_stage (O : Oracles) (rate_sv epsilon_dodis : ℚ)
    (dodis_output_len : ℤ) (trusted_backend privacy : Bool) :
    Except PlannerError (ℤ × ℤ) × List ℤ :=
  if trusted_backend && !privacy then
    let max_hayashi_size : ℤ := 5 * 10 ^ 8
    let epsilon_hayashi_tolerance := epsilon_dodis
    if tem rate_sv = 0 then (.error .zeroDivisionError, [])
    else
      let cmax := c_max rate_sv
      let hayashi_inputs := O.na_set dodis_output_len
      if max_hayashi_size < hayashi_inputs then (.error .inputTooLarge, [])
      else
        let r := hayashiSearch O.hayashi_parameters hayashi_inputs rate_sv
          cmax epsilon_hayashi_tolerance (cmax.toNat + 1) 0 0 1
        match r.1 with
        | .error e => (.error e, r.2)
        | .ok c => (.ok (hayashi_inputs, c), r.2)
  else (.ok (0, 0), [])

/-- `GeneratorResult.get_cqc_extractor_params` (source lines 75-192),
translated statement by statement.  Python floats are `ℚ`, Python ints `ℤ`;
each `raise ValueError` becomes the corresponding `PlannerError`
constructor.  The second component of the result is the ghost
`PlannerTrace` recording the arguments of the collaborator calls. -/
def get_cqc_extractor_params (O : Oracles) (gr : GeneratorResult)
    (rate_sv : ℚ) (expected_correlator : Option ℚ) (epsilon_sec : ℚ)
    (quantum_proof trusted_backend privacy : Bool)
    (wsr_generator : Option (ℤ → List ℤ)) :
    Except PlannerError CQCExtractorParams × PlannerTrace :=
  -- line 122: `expected_correlator = expected_correlator or self.mermin_correlator`
  let expected := pyOrQ expected_correlator gr.mermin_correlator
  -- lines 124-127
  if gr.mermin_correlator < expected then
    (.error .insufficientCorrelation, ⟨none, none, []⟩)
  -- lines 129-130
  else if privacy && !trusted_backend then
    (.error .invalidConfiguration, ⟨none, none, []⟩)
  else
    -- lines 132-133
    let wsr_gen := wsr_generator.getD O.generate_wsr
    -- lines 135-149 (folded into the stage definitions above)
    let n_dodis := plannerN O gr
    let rate_bt2 := plannerRate2 O gr rate_sv expected
    let bits2 := pySlice (plannerBits O gr) n_dodis
    -- lines 150-151
    if O.na_set (n_dodis - 1) + 1 ≠ n_dodis then
      (.error .internalInvariantViolation, ⟨none, none, []⟩)
    else
      -- lines 152-153
      let dodis_output_len :=
        plannerOutputLen O gr rate_sv expected epsilon_sec quantum_proof
      -- lines 154-156
      if dodis_output_len < 50 then
        (.error .insufficientOutput, ⟨none, some rate_bt2, []⟩)
      else
        -- lines 158-159
        let raw_bytes := O.bitarray_to_bytes bits2
        let wsr_bytes := O.bitarray_to_bytes (wsr_gen n_dodis)
        -- lines 161-183
        let e2 := ext2_stage O rate_sv (epsilon_sec / 2) dodis_output_len
          trusted_backend privacy
        let trace : PlannerTrace := ⟨some bits2, some rate_bt2, e2.2⟩
        match e2.1 with
        | .error e => (.error e, trace)
        | .ok p =>
          -- lines 185-192
          (.ok ⟨n_dodis, dodis_output_len, raw_bytes, wsr_bytes,
                p.1, p.2, wsr_gen⟩, trace)

/-- The method as an explicit state transformer on the receiver object.
The Python body of `get_cqc_extractor_params` contains no assignment to any
attribute of `self` (all bindings at lines 122-183 are local variables, and
`bits[:n_dodis]` at line 149 copies), so the statement-by-statement
state-passing translation returns the receiver unchanged alongside the
value. -/
def get_cqc_extractor_params_st (O : Oracles) (gr : GeneratorResult)
    (rate_sv : ℚ) (expected_correlator : Option ℚ) (epsilon_sec : ℚ)
    (quantum_proof trusted_backend privacy : Bool)
    (wsr_generator : Option (ℤ → List ℤ)) :
    (Except PlannerError CQCExtractorParams × PlannerTrace) × GeneratorResult :=
  (get_cqc_extractor_params O gr rate_sv expected_correlator epsilon_sec
    quantum_proof trusted_backend privacy wsr_generator, gr)

/-- Projection: the error of a planner outcome, if it failed. -/
def errOf : Except PlannerError CQCExtractorParams → Option PlannerError
  | .error e => some e
  | .ok _ => none

/-- Projection: `ext1_input_num_bits` of a successful outcome. -/
def okExt1In : Except PlannerError CQCExtractorParams → Option ℤ
  | .ok b => some b.ext1_input_num_bits
  | .error _ => none

/-- Projection: `ext1_output_num_bits` of a successful outcome. -/
def okExt1Out : Except PlannerError CQCExtractorParams → Option ℤ
  | .ok b => some b.ext1_output_num_bits
  | .error _ => none

/-- Projection: `ext2_seed_num_bits` of a successful outcome. -/
def okExt2Seed : Except PlannerError CQCExtractorParams → Option ℤ
  | .ok b => some b.ext2_seed_num_bits
  | .error _ => none

/-- Projection: `ext2_wsr_multiplier` of a successful outcome. -/
def okExt2Mul : Except PlannerError CQCExtractorParams → Option ℤ
  | .ok b => some b.ext2_wsr_multiplier
  | .error _ => none

/-- A concrete deterministic collaborator stub for witnesses and
counterexamples: the Bell triple is `(1/8, 7/8, 3)`, the bit formatter
flattens, the entropy-rate estimate is `9/10`, the set-size oracle is the
identity, the first-stage output length is `100`, and the security
parameter oracle returns multiplier `cursor + 1` with achieved epsilon `0`
(so the bounded search succeeds on its first call). -/
def stubO : Oracles :=
  ⟨fun _ _ => (1/8, 7/8, 3),
   fun l => l.flatten,
   fun _ _ _ => 9/10,
   fun x => x,
   fun _ _ _ _ _ => 100,
   fun _ _ _ cur => (cur + 1, 0),
   fun _ => [0],
   fun _ => [1]⟩

/-- Like `stubO`, but the security parameter oracle always reports achieved
epsilon `2`: it never meets any tolerance below `2`. -/
def stubNever : Oracles :=
  ⟨fun _ _ => (1/8, 7/8, 3),
   fun l => l.flatten,
   fun _ _ _ => 9/10,
   fun x => x,
   fun _ _ _ _ _ => 100,
   fun _ _ _ cur => (cur + 1, 2),
   fun _ => [0],
   fun _ => [1]⟩

/-- Like `stubO`, but the set-size oracle is strictly positive everywhere
(`max 1 x`, matching the contract that admissible sizes are positive). -/
def stubPos : Oracles :=
  ⟨fun _ _ => (1/8, 7/8, 3),
   fun l => l.flatten,
   fun _ _ _ => 9/10,
   fun x => if x ≤ 0 then 1 else x,
   fun _ _ _ _ _ => 100,
   fun _ _ _ _ => (5, 0),
   fun _ => [0],
   fun _ => [1]⟩

/-- A concrete sampling result with eight raw bits and Bell triple
`(1/8, 7/8, 3)` (observed Mermin correlator `3`). -/
def gr0 : GeneratorResult :=
  ⟨[[0, 1]], [[1, 0, 1, 0], [1, 1, 0, 0]], [1, 0, 1, 0, 1, 1, 0, 0],
    1/8, 7/8, 3⟩

/-- A concrete sampling result whose observed Mermin correlator is `-1`
(an anticorrelated source, below the classical bound). -/
def grNeg : GeneratorResult :=
  ⟨[[0, 1]], [[1, 0, 1, 0], [1, 1, 0, 0]], [1, 0, 1, 0, 1, 1, 0, 0],
    0, 0, -1⟩

/-- Python `round` of a nonnegative rational is nonnegative. -/
theorem pyRound_nonneg {q : ℚ} (hq : 0 ≤ q) : 0 ≤ pyRound q := by
  have h0 : (0 : ℤ) ≤ ⌊q⌋ := Int.floor_nonneg.mpr hq
  unfold pyRound
  split
  · exact h0
  · split
    · omega
    · split <;> omega

/-- Python `round` of an exact integer is that integer. -/
theorem pyRound_intCast (z : ℤ) : pyRound (z : ℚ) = z := by
  unfold pyRound
  rw [Int.floor_intCast]
  simp

/-- The length of a Python slice `xs[:k]` is `k` when `0 ≤ k ≤ len(xs)`. -/
theorem pySlice_length {α : Type} (xs : List α) (k : ℤ) (h0 : 0 ≤ k)
    (hk : k ≤ (xs.length : ℤ)) : ((pySlice xs k).length : ℤ) = k := by
  rw [pySlice, if_pos h0, List.length_take]
  omega

/-- The rounded complement rate `tem` is nonnegative when `rate_sv ≤ 1`. -/
theorem tem_nonneg {rate_sv : ℚ} (h1 : rate_sv ≤ 1) : 0 ≤ tem rate_sv := by
  unfold tem
  have h : (0 : ℚ) ≤ (1 - rate_sv) * 10 ^ 8 :=
    mul_nonneg (by linarith) (by norm_num)
  have h2 : (0 : ℚ) ≤ ((pyRound ((1 - rate_sv) * 10 ^ 8) : ℤ) : ℚ) := by
    exact_mod_cast pyRound_nonneg h
  exact div_nonneg h2 (by norm_num)

/-- When `tem rate_sv` is nonzero and `rate_sv ≤ 1`, the search cap
`c_max rate_sv` is nonnegative. -/
theorem c_max_nonneg {rate_sv : ℚ} (h1 : rate_sv ≤ 1) (h0 : tem rate_sv ≠ 0) :
    0 ≤ c_max rate_sv := by
  have ht : 0 < tem rate_sv := lt_of_le_of_ne (tem_nonneg h1) (Ne.symm h0)
  unfold c_max
  exact Int.floor_nonneg.mpr (by positivity)

/-- The cursor trace of the bounded search is an initial arithmetic
progression starting at the initial cursor value. -/
theorem hayashiSearch_cursors (hp : ℤ → ℚ → ℤ → ℤ → ℤ × ℚ) (i : ℤ)
    (rv : ℚ) (m : ℤ) (t : ℚ) :
    ∀ (fuel : ℕ) (p c : ℤ) (eps : ℚ), ∃ k : ℕ,
      (hayashiSearch hp i rv m t fuel p c eps).2
        = (List.range k).map (fun j : ℕ => p + (j : ℤ)) := by
  intro fuel
  induction fuel with
  | zero =>
    intro p c eps
    refine ⟨0, ?_⟩
    rw [hayashiSearch]
    split <;> simp
  | succ fuel ih =>
    intro p c eps
    by_cases h : eps ≤ t
    · exact ⟨0, by rw [hayashiSearch]; simp [h]⟩
    · by_cases hm : p = m
      · exact ⟨0, by rw [hayashiSearch]; simp [h, hm]⟩
      · obtain ⟨k, hk⟩ := ih (p + 1) (hp i rv m p).1 (hp i rv m p).2
        refine ⟨k + 1, ?_⟩
        rw [hayashiSearch]
        simp only [if_neg h, if_neg hm]
        rw [hk, List.range_succ_eq_map]
        have hfun : ((fun j : ℕ => p + (j : ℤ)) ∘ Nat.succ)
            = fun j : ℕ => p + 1 + (j : ℤ) := by
          funext j
          simp only [Function.comp_apply]
          push_cast
          ring
        simp only [List.map_cons, List.map_map, hfun, Nat.cast_zero, add_zero]

/-- The bounded search makes at most `cmax - c_pen` oracle calls. -/
theorem hayashiSearch_length_le (hp : ℤ → ℚ → ℤ → ℤ → ℤ × ℚ) (i : ℤ)
    (rv : ℚ) (m : ℤ) (t : ℚ) :
    ∀ (fuel : ℕ) (p c : ℤ) (eps : ℚ), p ≤ m →
      (((hayashiSearch hp i rv m t fuel p c eps).2.length : ℤ)) ≤ m - p := by
  intro fuel
  induction fuel with
  | zero =>
    intro p c eps hpm
    rw [hayashiSearch]
    split
    · simp only [List.length_nil, Nat.cast_zero]; omega
    · simp only [List.length_nil, Nat.cast_zero]; omega
  | succ fuel ih =>
    intro p c eps hpm
    by_cases h : eps ≤ t
    · rw [hayashiSearch]
      simp only [if_pos h, List.length_nil, Nat.cast_zero]
      omega
    · by_cases hm : p = m
      · rw [hayashiSearch]
        simp only [if_neg h, if_pos hm, List.length_nil, Nat.cast_zero]
        omega
      · have hrec := ih (p + 1) (hp i rv m p).1 (hp i rv m p).2 (by omega)
        rw [hayashiSearch]
        simp only [if_neg h, if_neg hm, List.length_cons]
        push_cast
        push_cast at hrec
        omega

/-- With fuel exceeding `cmax - c_pen`, the bounded search never reports
fuel exhaustion: termination of the `while` loop is structural. -/
theorem hayashiSearch_no_exhaustion (hp : ℤ → ℚ → ℤ → ℤ → ℤ × ℚ) (i : ℤ)
    (rv : ℚ) (m : ℤ) (t : ℚ) :
    ∀ (fuel : ℕ) (p c : ℤ) (eps : ℚ), p ≤ m → (m - p).toNat < fuel →
      (hayashiSearch hp i rv m t fuel p c eps).1
        ≠ .error .nonTermination := by
  intro fuel
  induction fuel with
  | zero => intro p c eps hpm hf; omega
  | succ fuel ih =>
    intro p c eps hpm hf
    by_cases h : eps ≤ t
    · rw [hayashiSearch]; simp [h]
    · by_cases hm : p = m
      · rw [hayashiSearch]; simp [h, hm]
      · have hrec := ih (p + 1) (hp i rv m p).1 (hp i rv m p).2
          (by omega) (by omega)
        rw [hayashiSearch]
        simp only [if_neg h, if_neg hm]
        exact hrec

/-- Under an oracle whose achieved epsilon never meets the tolerance, the
bounded search fails with `invalidSecurityParameters` after exactly
`cmax - c_pen` oracle calls. -/
theorem hayashiSearch_exhausts (hp : ℤ → ℚ → ℤ → ℤ → ℤ × ℚ) (i : ℤ)
    (rv : ℚ) (m : ℤ) (t : ℚ)
    (hnever : ∀ cur : ℤ, ¬ (hp i rv m cur).2 ≤ t) :
    ∀ (fuel : ℕ) (p c : ℤ) (eps : ℚ), p ≤ m → (m - p).toNat < fuel →
      ¬ eps ≤ t →
      (hayashiSearch hp i rv m t fuel p c eps).1
          = .error .invalidSecurityParameters ∧
        ((hayashiSearch hp i rv m t fuel p c eps).2.length : ℤ) = m - p := by
  intro fuel
  induction fuel with
  | zero => intro p c eps hpm hf _; omega
  | succ fuel ih =>
    intro p c eps hpm hf heps
    by_cases hm : p = m
    · rw [hayashiSearch]
      simp only [if_neg heps, if_pos hm, List.length_nil, Nat.cast_zero]
      exact ⟨by trivial, by omega⟩
    · have hrec := ih (p + 1) (hp i rv m p).1 (hp i rv m p).2
        (by omega) (by omega) (hnever p)
      rw [hayashiSearch]
      simp only [if_neg heps, if_neg hm, List.length_cons]
      refine ⟨hrec.1, ?_⟩
      have h2 := hrec.2
      push_cast
      push_cast at h2
      omega

/-- The bounded search can only fail with `invalidSecurityParameters` or
(fuel exhaustion) `nonTermination`. -/
theorem hayashiSearch_error_cases (hp : ℤ → ℚ → ℤ → ℤ → ℤ × ℚ) (i : ℤ)
    (rv : ℚ) (m : ℤ) (t : ℚ) :
    ∀ (fuel : ℕ) (p c : ℤ) (eps : ℚ) (e : PlannerError),
      (hayashiSearch hp i rv m t fuel p c eps).1 = .error e →
      e = .invalidSecurityParameters ∨ e = .nonTermination := by
  intro fuel
  induction fuel with
  | zero =>
    intro p c eps e he
    rw [hayashiSearch] at he
    split at he
    · simp at he
    · simp only [Prod.fst] at he
      injection he with he'
      exact Or.inr he'.symm
  | succ fuel ih =>
    intro p c eps e he
    rw [hayashiSearch] at he
    split at he
    · simp at he
    · split at he
      · simp only [Prod.fst] at he
        injection he with he'
        exact Or.inl he'.symm
      · simp only [Prod.fst] at he
        exact ih (p + 1) (hp i rv m p).1 (hp i rv m p).2 e he

/-- A successful search result is either the initial candidate (when the
entry epsilon already meets the tolerance) or the multiplier returned by
some oracle call. -/
theorem hayashiSearch_ok (hp : ℤ → ℚ → ℤ → ℤ → ℤ × ℚ) (i : ℤ)
    (rv : ℚ) (m : ℤ) (t : ℚ) :
    ∀ (fuel : ℕ) (p c : ℤ) (eps : ℚ) (v : ℤ),
      (hayashiSearch hp i rv m t fuel p c eps).1 = .ok v →
      (v = c ∧ eps ≤ t) ∨ ∃ q : ℤ, v = (hp i rv m q).1 := by
  intro fuel
  induction fuel with
  | zero =>
    intro p c eps v hv
    rw [hayashiSearch] at hv
    split at hv
    · rename_i h
      simp only [Prod.fst] at hv
      injection hv with hv'
      exact Or.inl ⟨hv'.symm, h⟩
    · simp at hv
  | succ fuel ih =>
    intro p c eps v hv
    rw [hayashiSearch] at hv
    split at hv
    · rename_i h
      simp only [Prod.fst] at hv
      injection hv with hv'
      exact Or.inl ⟨hv'.symm, h⟩
    · split at hv
      · simp at hv
      · simp only [Prod.fst] at hv
        have := ih (p + 1) (hp i rv m p).1 (hp i rv m p).2 v hv
        rcases this with ⟨h1, _⟩ | ⟨q, hq⟩
        · exact Or.inr ⟨p, h1⟩
        · exact Or.inr ⟨q, hq⟩

/-- Second stage skipped: when the gate `trusted_backend and not privacy`
is false, the stage returns the disabled sentinel `(0, 0)`. -/
theorem ext2_stage_off (O : Oracles) (rv ed : ℚ) (len : ℤ) (tb priv : Bool)
    (hG : ¬ (tb && !priv) = true) :
    ext2_stage O rv ed len tb priv = (.ok (0, 0), []) := by
  rw [ext2_stage, if_neg hG]

/-- Second stage, division by zero: when the gate holds and the rounded
complement rate is `0`, Python's `1 / tem` raises `ZeroDivisionError`. -/
theorem ext2_stage_zeroDiv (O : Oracles) (rv ed : ℚ) (len : ℤ)
    (tb priv : Bool) (hG : (tb && !priv) = true) (h0 : tem rv = 0) :
    ext2_stage O rv ed len tb priv = (.error .zeroDivisionError, []) := by
  rw [ext2_stage, if_pos hG]
  simp only [if_pos h0]

/-- Second stage, oversized input guard (lines 170-172 of the source). -/
theorem ext2_stage_tooLarge (O : Oracles) (rv ed : ℚ) (len : ℤ)
    (tb priv : Bool) (hG : (tb && !priv) = true) (h0 : ¬ tem rv = 0)
    (hL : 5 * 10 ^ 8 < O.na_set len) :
    ext2_stage O rv ed len tb priv = (.error .inputTooLarge, []) := by
  rw [ext2_stage, if_pos hG]
  simp only [if_neg h0, if_pos hL]

/-- Second stage, search reached: the stage's outcome is determined by the
bounded search started with fuel `c_max.toNat + 1`, cursor `0`, candidate
`0` and initial epsilon `1`. -/
theorem ext2_stage_search (O : Oracles) (rv ed : ℚ) (len : ℤ)
    (tb priv : Bool) (hG : (tb && !priv) = true) (h0 : ¬ tem rv = 0)
    (hL : ¬ 5 * 10 ^ 8 < O.na_set len) :
    ext2_stage O rv ed len tb priv
      = (let r := hayashiSearch O.hayashi_parameters (O.na_set len) rv
          (c_max rv) ed ((c_max rv).toNat + 1) 0 0 1
        match r.1 with
        | .error e => (.error e, r.2)
        | .ok c => (.ok (O.na_set len, c), r.2)) := by
  rw [ext2_stage, if_pos hG]
  simp only [if_neg h0, if_neg hL]

/-- The first guard fires: `InsufficientCorrelation` (lines 124-127). -/
theorem planner_corr_case (O : Oracles) (gr : GeneratorResult)
    (rv : ℚ) (exp : Option ℚ) (es : ℚ) (qp tb priv : Bool)
    (gen : Option (ℤ → List ℤ))
    (hA : gr.mermin_correlator < pyOrQ exp gr.mermin_correlator) :
    get_cqc_extractor_params O gr rv exp es qp tb priv gen
      = (.error .insufficientCorrelation, ⟨none, none, []⟩) := by
  rw [get_cqc_extractor_params]
  simp only [if_pos hA]

/-- The second guard fires: `InvalidConfiguration` (lines 129-130). -/
theorem planner_config_case (O : Oracles) (gr : GeneratorResult)
    (rv : ℚ) (exp : Option ℚ) (es : ℚ) (qp tb priv : Bool)
    (gen : Option (ℤ → List ℤ))
    (hA : ¬ gr.mermin_correlator < pyOrQ exp gr.mermin_correlator)
    (hB : (priv && !tb) = true) :
    get_cqc_extractor_params O gr rv exp es qp tb priv gen
      = (.error .invalidConfiguration, ⟨none, none, []⟩) := by
  rw [get_cqc_extractor_params]
  simp only [if_neg hA, if_pos hB]

/-- The oracle self-consistency guard fires: `InternalInvariantViolation`
(lines 150-151). -/
theorem planner_invariant_case (O : Oracles) (gr : GeneratorResult)
    (rv : ℚ) (exp : Option ℚ) (es : ℚ) (qp tb priv : Bool)
    (gen : Option (ℤ → List ℤ))
    (hA : ¬ gr.mermin_correlator < pyOrQ exp gr.mermin_correlator)
    (hB : ¬ (priv && !tb) = true)
    (hC : O.na_set (plannerN O gr - 1) + 1 ≠ plannerN O gr) :
    get_cqc_extractor_params O gr rv exp es qp tb priv gen
      = (.error .internalInvariantViolation, ⟨none, none, []⟩) := by
  rw [get_cqc_extractor_params]
  simp only [if_neg hA, if_neg hB, if_pos hC]

/-- The output floor guard fires: `InsufficientOutput` (lines 154-156). -/
theorem planner_output_case (O : Oracles) (gr : GeneratorResult)
    (rv : ℚ) (exp : Option ℚ) (es : ℚ) (qp tb priv : Bool)
    (gen : Option (ℤ → List ℤ))
    (hA : ¬ gr.mermin_correlator < pyOrQ exp gr.mermin_correlator)
    (hB : ¬ (priv && !tb) = true)
    (hC : O.na_set (plannerN O gr - 1) + 1 = plannerN O gr)
    (hD : plannerOutputLen O gr rv (pyOrQ exp gr.mermin_correlator) es qp
      < 50) :
    get_cqc_extractor_params O gr rv exp es qp tb priv gen
      = (.error .insufficientOutput,
          ⟨none, some (plannerRate2 O gr rv (pyOrQ exp gr.mermin_correlator)),
            []⟩) := by
  rw [get_cqc_extractor_params]
  simp only [if_neg hA, if_neg hB, if_neg (not_not_intro hC), if_pos hD]

/-- All four early guards pass: the outcome is determined by the second
stage (lines 158-192). -/
theorem planner_main_case (O : Oracles) (gr : GeneratorResult)
    (rv : ℚ) (exp : Option ℚ) (es : ℚ) (qp tb priv : Bool)
    (gen : Option (ℤ → List ℤ))
    (hA : ¬ gr.mermin_correlator < pyOrQ exp gr.mermin_correlator)
    (hB : ¬ (priv && !tb) = true)
    (hC : O.na_set (plannerN O gr - 1) + 1 = plannerN O gr)
    (hD : ¬ plannerOutputLen O gr rv (pyOrQ exp gr.mermin_correlator) es qp
      < 50) :
    get_cqc_extractor_params O gr rv exp es qp tb priv gen
      = (let e2 := ext2_stage O rv (es / 2)
          (plannerOutputLen O gr rv (pyOrQ exp gr.mermin_correlator) es qp)
          tb priv
        let bits2 := pySlice (plannerBits O gr) (plannerN O gr)
        let trace : PlannerTrace :=
          ⟨some bits2,
            some (plannerRate2 O gr rv (pyOrQ exp gr.mermin_correlator)),
            e2.2⟩
        match e2.1 with
        | .error e => (.error e, trace)
        | .ok p =>
          (.ok ⟨plannerN O gr,
            plannerOutputLen O gr rv (pyOrQ exp gr.mermin_correlator) es qp,
            O.bitarray_to_bytes bits2,
            O.bitarray_to_bytes ((gen.getD O.generate_wsr) (plannerN O gr)),
            p.1, p.2, gen.getD O.generate_wsr⟩, trace)) := by
  rw [get_cqc_extractor_params]
  simp only [if_neg hA, if_neg hB, if_neg (not_not_intro hC), if_neg hD]

/-- The second stage can only fail with `zeroDivisionError`,
`inputTooLarge`, `invalidSecurityParameters` or `nonTermination`. -/
theorem ext2_stage_error_cases (O : Oracles) (rv ed : ℚ) (len : ℤ)
    (tb priv : Bool) (e : PlannerError)
    (he : (ext2_stage O rv ed len tb priv).1 = .error e) :
    e = .zeroDivisionError ∨ e = .inputTooLarge ∨
      e = .invalidSecurityParameters ∨ e = .nonTermination := by
  by_cases hG : (tb && !priv) = true
  · by_cases h0 : tem rv = 0
    · rw [ext2_stage_zeroDiv O rv ed len tb priv hG h0] at he
      simp only [Prod.fst] at he
      injection he with he'
      exact Or.inl he'.symm
    · by_cases hL : 5 * 10 ^ 8 < O.na_set len
      · rw [ext2_stage_tooLarge O rv ed len tb priv hG h0 hL] at he
        simp only [Prod.fst] at he
        injection he with he'
        exact Or.inr (Or.inl he'.symm)
      · rw [ext2_stage_search O rv ed len tb priv hG h0 hL] at he
        simp only [] at he
        rcases hr : (hayashiSearch O.hayashi_parameters (O.na_set len) rv
            (c_max rv) ed ((c_max rv).toNat + 1) 0 0 1).1 with e' | c
        · rw [hr] at he
          simp only [Prod.fst] at he
          injection he with he'
          rcases hayashiSearch_error_cases O.hayashi_parameters
            (O.na_set len) rv (c_max rv) ed ((c_max rv).toNat + 1) 0 0 1
            e' hr with h | h
          · exact Or.inr (Or.inr (Or.inl (he'.symm.trans h)))
          · exact Or.inr (Or.inr (Or.inr (he'.symm.trans h)))
        · rw [hr] at he
          simp at he
  · rw [ext2_stage_off O rv ed len tb priv hG] at he
    simp at he

/-- Which guard produced each failure of the planner: a failed run is one
of the four early guard failures or a second-stage failure, and in each
case the guards before it did not fire. -/
theorem planner_error_source (O : Oracles) (gr : GeneratorResult)
    (rv : ℚ) (exp : Option ℚ) (es : ℚ) (qp tb priv : Bool)
    (gen : Option (ℤ → List ℤ)) (e : PlannerError)
    (h : (get_cqc_extractor_params O gr rv exp es qp tb priv gen).1
      = .error e) :
    (e = .insufficientCorrelation ∧
        gr.mermin_correlator < pyOrQ exp gr.mermin_correlator) ∨
    (e = .invalidConfiguration ∧
        ¬ gr.mermin_correlator < pyOrQ exp gr.mermin_correlator ∧
        (priv && !tb) = true) ∨
    (e = .internalInvariantViolation ∧
        ¬ gr.mermin_correlator < pyOrQ exp gr.mermin_correlator ∧
        ¬ (priv && !tb) = true ∧
        O.na_set (plannerN O gr - 1) + 1 ≠ plannerN O gr) ∨
    (e = .insufficientOutput ∧
        ¬ gr.mermin_correlator < pyOrQ exp gr.mermin_correlator ∧
        ¬ (priv && !tb) = true ∧
        O.na_set (plannerN O gr - 1) + 1 = plannerN O gr ∧
        plannerOutputLen O gr rv (pyOrQ exp gr.mermin_correlator) es qp
          < 50) ∨
    ((e = .zeroDivisionError ∨ e = .inputTooLarge ∨
        e = .invalidSecurityParameters ∨ e = .nonTermination) ∧
      ¬ gr.mermin_correlator < pyOrQ exp gr.mermin_correlator ∧
      ¬ (priv && !tb) = true ∧
      O.na_set (plannerN O gr - 1) + 1 = plannerN O gr ∧
      ¬ plannerOutputLen O gr rv (pyOrQ exp gr.mermin_correlator) es qp
        < 50 ∧
      (ext2_stage O rv (es / 2)
        (plannerOutputLen O gr rv (pyOrQ exp gr.mermin_correlator) es qp)
        tb priv).1 = .error e) := by
  by_cases hA : gr.mermin_correlator < pyOrQ exp gr.mermin_correlator
  · rw [planner_corr_case O gr rv exp es qp tb priv gen hA] at h
    simp only [Prod.fst] at h
    injection h with h'
    exact Or.inl ⟨h'.symm, hA⟩
  · by_cases hB : (priv && !tb) = true
    · rw [planner_config_case O gr rv exp es qp tb priv gen hA hB] at h
      simp only [Prod.fst] at h
      injection h with h'
      exact Or.inr (Or.inl ⟨h'.symm, hA, hB⟩)
    · by_cases hC : O.na_set (plannerN O gr - 1) + 1 = plannerN O gr
      · by_cases hD : plannerOutputLen O gr rv
            (pyOrQ exp gr.mermin_correlator) es qp < 50
        · rw [planner_output_case O gr rv exp es qp tb priv gen
            hA hB hC hD] at h
          simp only [Prod.fst] at h
          injection h with h'
          exact Or.inr (Or.inr (Or.inr (Or.inl ⟨h'.symm, hA, hB, hC, hD⟩)))
        · rw [planner_main_case O gr rv exp es qp tb priv gen
            hA hB hC hD] at h
          simp only [] at h
          rcases he2 : (ext2_stage O rv (es / 2)
              (plannerOutputLen O gr rv (pyOrQ exp gr.mermin_correlator)
                es qp) tb priv).1 with e' | p
          · rw [he2] at h
            simp only [Prod.fst] at h
            injection h with h'
            subst h'
            exact Or.inr (Or.inr (Or.inr (Or.inr
              ⟨ext2_stage_error_cases O rv (es / 2) _ tb priv _ he2,
                hA, hB, hC, hD, rfl⟩)))
          · rw [he2] at h
            simp at h
      · rw [planner_invariant_case O gr rv exp es qp tb priv gen
          hA hB hC] at h
        simp only [Prod.fst] at h
        injection h with h'
        exact Or.inr (Or.inr (Or.inl ⟨h'.symm, hA, hB, hC⟩))

/-- A successful run passed every guard, and its bundle fields are the
stage values; in particular the second-stage pair comes from a successful
second stage. -/
theorem planner_ok_source (O : Oracles) (gr : GeneratorResult)
    (rv : ℚ) (exp : Option ℚ) (es : ℚ) (qp tb priv : Bool)
    (gen : Option (ℤ → List ℤ)) (b : CQCExtractorParams)
    (h : (get_cqc_extractor_params O gr rv exp es qp tb priv gen).1
      = .ok b) :
    ¬ gr.mermin_correlator < pyOrQ exp gr.mermin_correlator ∧
    ¬ (priv && !tb) = true ∧
    O.na_set (plannerN O gr - 1) + 1 = plannerN O gr ∧
    ¬ plannerOutputLen O gr rv (pyOrQ exp gr.mermin_correlator) es qp
      < 50 ∧
    b.ext1_input_num_bits = plannerN O gr ∧
    b.ext1_output_num_bits
      = plannerOutputLen O gr rv (pyOrQ exp gr.mermin_correlator) es qp ∧
    ∃ pr : ℤ × ℤ,
      (ext2_stage O rv (es / 2)
        (plannerOutputLen O gr rv (pyOrQ exp gr.mermin_correlator) es qp)
        tb priv).1 = .ok pr ∧
      b.ext2_seed_num_bits = pr.1 ∧ b.ext2_wsr_multiplier = pr.2 := by
  by_cases hA : gr.mermin_correlator < pyOrQ exp gr.mermin_correlator
  · rw [planner_corr_case O gr rv exp es qp tb priv gen hA] at h
    simp at h
  · by_cases hB : (priv && !tb) = true
    · rw [planner_config_case O gr rv exp es qp tb priv gen hA hB] at h
      simp at h
    · by_cases hC : O.na_set (plannerN O gr - 1) + 1 = plannerN O gr
      · by_cases hD : plannerOutputLen O gr rv
            (pyOrQ exp gr.mermin_correlator) es qp < 50
        · rw [planner_output_case O gr rv exp es qp tb priv gen
            hA hB hC hD] at h
          simp at h
        · rw [planner_main_case O gr rv exp es qp tb priv gen
            hA hB hC hD] at h
          simp only [] at h
          rcases he2 : (ext2_stage O rv (es / 2)
              (plannerOutputLen O gr rv (pyOrQ exp gr.mermin_correlator)
                es qp) tb priv).1 with e' | p
          · rw [he2] at h
            simp at h
          · rw [he2] at h
            simp only [Prod.fst] at h
            injection h with h'
            subst h'
            exact ⟨hA, hB, hC, hD, rfl, rfl, p, rfl, rfl, rfl⟩
      · rw [planner_invariant_case O gr rv exp es qp tb priv gen
          hA hB hC] at h
        simp at h

/-- Inversion for the `errOf` projection. -/
theorem errOf_eq_some (r : Except PlannerError CQCExtractorParams)
    (e : PlannerError) : errOf r = some e ↔ r = .error e := by
  cases r <;> simp [errOf]

/-- Inversion for the `okExt1In` projection. -/
theorem okExt1In_eq_some (r : Except PlannerError CQCExtractorParams)
    (v : ℤ) : okExt1In r = some v
      ↔ ∃ b, r = .ok b ∧ b.ext1_input_num_bits = v := by
  cases r <;> simp [okExt1In]

/-- Inversion for the `okExt1Out` projection. -/
theorem okExt1Out_eq_some (r : Except PlannerError CQCExtractorParams)
    (v : ℤ) : okExt1Out r = some v
      ↔ ∃ b, r = .ok b ∧ b.ext1_output_num_bits = v := by
  cases r <;> simp [okExt1Out]

/-- Inversion for the `okExt2Seed` projection. -/
theorem okExt2Seed_eq_some (r : Except PlannerError CQCExtractorParams)
    (v : ℤ) : okExt2Seed r = some v
      ↔ ∃ b, r = .ok b ∧ b.ext2_seed_num_bits = v := by
  cases r <;> simp [okExt2Seed]

/-- Inversion for the `okExt2Mul` projection. -/
theorem okExt2Mul_eq_some (r : Except PlannerError CQCExtractorParams)
    (v : ℤ) : okExt2Mul r = some v
      ↔ ∃ b, r = .ok b ∧ b.ext2_wsr_multiplier = v := by
  cases r <;> simp [okExt2Mul]

/-- In the search case, the second stage's cursor trace is the search's
cursor trace. -/
theorem ext2_stage_search_snd (O : Oracles) (rv ed : ℚ) (len : ℤ)
    (tb priv : Bool) (hG : (tb && !priv) = true) (h0 : ¬ tem rv = 0)
    (hL : ¬ 5 * 10 ^ 8 < O.na_set len) :
    (ext2_stage O rv ed len tb priv).2
      = (hayashiSearch O.hayashi_parameters (O.na_set len) rv (c_max rv) ed
          ((c_max rv).toNat + 1) 0 0 1).2 := by
  rw [ext2_stage_search O rv ed len tb priv hG h0 hL]
  rcases hr : (hayashiSearch O.hayashi_parameters (O.na_set len) rv
      (c_max rv) ed ((c_max rv).toNat + 1) 0 0 1).1 with e | c <;>
    simp [hr]

/-- In the search case, a failed search fails the second stage with the
same error. -/
theorem ext2_stage_search_err (O : Oracles) (rv ed : ℚ) (len : ℤ)
    (tb priv : Bool) (hG : (tb && !priv) = true) (h0 : ¬ tem rv = 0)
    (hL : ¬ 5 * 10 ^ 8 < O.na_set len) (e : PlannerError)
    (he : (hayashiSearch O.hayashi_parameters (O.na_set len) rv (c_max rv)
      ed ((c_max rv).toNat + 1) 0 0 1).1 = .error e) :
    (ext2_stage O rv ed len tb priv).1 = .error e := by
  rw [ext2_stage_search O rv ed len tb priv hG h0 hL]
  simp [he]

/-- In the search case, a successful search yields the second-stage pair
`(hayashi_inputs, multiplier)`. -/
theorem ext2_stage_search_ok (O : Oracles) (rv ed : ℚ) (len : ℤ)
    (tb priv : Bool) (hG : (tb && !priv) = true) (h0 : ¬ tem rv = 0)
    (hL : ¬ 5 * 10 ^ 8 < O.na_set len) (c : ℤ)
    (hc : (hayashiSearch O.hayashi_parameters (O.na_set len) rv (c_max rv)
      ed ((c_max rv).toNat + 1) 0 0 1).1 = .ok c) :
    (ext2_stage O rv ed len tb priv).1 = .ok (O.na_set len, c) := by
  rw [ext2_stage_search O rv ed len tb priv hG h0 hL]
  simp [hc]

/-- When every guard passes, the planner's cursor trace is the second
stage's cursor trace. -/
theorem planner_main_snd (O : Oracles) (gr : GeneratorResult)
    (rv : ℚ) (exp : Option ℚ) (es : ℚ) (qp tb priv : Bool)
    (gen : Option (ℤ → List ℤ))
    (hA : ¬ gr.mermin_correlator < pyOrQ exp gr.mermin_correlator)
    (hB : ¬ (priv && !tb) = true)
    (hC : O.na_set (plannerN O gr - 1) + 1 = plannerN O gr)
    (hD : ¬ plannerOutputLen O gr rv (pyOrQ exp gr.mermin_correlator) es qp
      < 50) :
    (get_cqc_extractor_params O gr rv exp es qp tb priv gen).2.hayashiCursors
      = (ext2_stage O rv (es / 2)
          (plannerOutputLen O gr rv (pyOrQ exp gr.mermin_correlator) es qp)
          tb priv).2 := by
  rw [planner_main_case O gr rv exp es qp tb priv gen hA hB hC hD]
  rcases he2 : (ext2_stage O rv (es / 2)
      (plannerOutputLen O gr rv (pyOrQ exp gr.mermin_correlator) es qp)
      tb priv).1 with e | p <;> simp [he2]

/-- When every guard passes, a failed second stage fails the planner with
the same error. -/
theorem planner_main_err (O : Oracles) (gr : GeneratorResult)
    (rv : ℚ) (exp : Option ℚ) (es : ℚ) (qp tb priv : Bool)
    (gen : Option (ℤ → List ℤ))
    (hA : ¬ gr.mermin_correlator < pyOrQ exp gr.mermin_correlator)
    (hB : ¬ (priv && !tb) = true)
    (hC : O.na_set (plannerN O gr - 1) + 1 = plannerN O gr)
    (hD : ¬ plannerOutputLen O gr rv (pyOrQ exp gr.mermin_correlator) es qp
      < 50) (e : PlannerError)
    (he : (ext2_stage O rv (es / 2)
      (plannerOutputLen O gr rv (pyOrQ exp gr.mermin_correlator) es qp)
      tb priv).1 = .error e) :
    (get_cqc_extractor_params O gr rv exp es qp tb priv gen).1
      = .error e := by
  rw [planner_main_case O gr rv exp es qp tb priv gen hA hB hC hD]
  simp [he]

/-- The truncated bit sequence recorded as passed to the byte encoder is
always `bits[:n_dodis]`. -/
theorem planner_bitsArg (O : Oracles) (gr : GeneratorResult)
    (rv : ℚ) (exp : Option ℚ) (es : ℚ) (qp tb priv : Bool)
    (gen : Option (ℤ → List ℤ)) (l : List ℤ)
    (h : (get_cqc_extractor_params O gr rv exp es qp tb priv gen).2.ext1BitsArg
      = some l) :
    l = pySlice (plannerBits O gr) (plannerN O gr) := by
  by_cases hA : gr.mermin_correlator < pyOrQ exp gr.mermin_correlator
  · rw [planner_corr_case O gr rv exp es qp tb priv gen hA] at h
    simp at h
  · by_cases hB : (priv && !tb) = true
    · rw [planner_config_case O gr rv exp es qp tb priv gen hA hB] at h
      simp at h
    · by_cases hC : O.na_set (plannerN O gr - 1) + 1 = plannerN O gr
      · by_cases hD : plannerOutputLen O gr rv
            (pyOrQ exp gr.mermin_correlator) es qp < 50
        · rw [planner_output_case O gr rv exp es qp tb priv gen
            hA hB hC hD] at h
          simp at h
        · rw [planner_main_case O gr rv exp es qp tb priv gen
            hA hB hC hD] at h
          simp only [] at h
          rcases he2 : (ext2_stage O rv (es / 2)
              (plannerOutputLen O gr rv (pyOrQ exp gr.mermin_correlator)
                es qp) tb priv).1 with e | p <;>
            rw [he2] at h <;> simp at h <;> exact h.symm
      · rw [planner_invariant_case O gr rv exp es qp tb priv gen
          hA hB hC] at h
        simp at h

/-- The corrected rate recorded as passed to `dodis_output_size` is always
the truncation-adjusted rate of line 148. -/
theorem planner_rateArg (O : Oracles) (gr : GeneratorResult)
    (rv : ℚ) (exp : Option ℚ) (es : ℚ) (qp tb priv : Bool)
    (gen : Option (ℤ → List ℤ)) (r : ℚ)
    (h : (get_cqc_extractor_params O gr rv exp es qp tb priv gen).2.dodisRateArg
      = some r) :
    r = plannerRate2 O gr rv (pyOrQ exp gr.mermin_correlator) := by
  by_cases hA : gr.mermin_correlator < pyOrQ exp gr.mermin_correlator
  · rw [planner_corr_case O gr rv exp es qp tb priv gen hA] at h
    simp at h
  · by_cases hB : (priv && !tb) = true
    · rw [planner_config_case O gr rv exp es qp tb priv gen hA hB] at h
      simp at h
    · by_cases hC : O.na_set (plannerN O gr - 1) + 1 = plannerN O gr
      · by_cases hD : plannerOutputLen O gr rv
            (pyOrQ exp gr.mermin_correlator) es qp < 50
        · rw [planner_output_case O gr rv exp es qp tb priv gen
            hA hB hC hD] at h
          simp at h
          exact h.symm
        · rw [planner_main_case O gr rv exp es qp tb priv gen
            hA hB hC hD] at h
          simp only [] at h
          rcases he2 : (ext2_stage O rv (es / 2)
              (plannerOutputLen O gr rv (pyOrQ exp gr.mermin_correlator)
                es qp) tb priv).1 with e | p <;>
            rw [he2] at h <;> simp at h <;> exact h.symm
      · rw [planner_invariant_case O gr rv exp es qp tb priv gen
          hA hB hC] at h
        simp at h

/-- C3 (amended): `get_cqc_extractor_params` raises `InsufficientCorrelation`
if and only if the observed `mermin_correlator` is strictly below the
effective expected correlator — the supplied `expected_correlator` when that
is nonzero, else the observed value (a supplied `0` is treated as absent by
Python's `or` at line 122); in particular, when the observed correlator
equals the effective expected correlator the check succeeds and the
computation proceeds. -/
theorem C3_correlator_check (O : Oracles) (gr : GeneratorResult) (rv : ℚ)
    (exp : Option ℚ) (es : ℚ) (qp tb priv : Bool)
    (gen : Option (ℤ → List ℤ)) :
    errOf (get_cqc_extractor_params O gr rv exp es qp tb priv gen).1
        = some PlannerError.insufficientCorrelation
      ↔ gr.mermin_correlator < pyOrQ exp gr.mermin_correlator := by
  constructor
  · intro h
    rw [errOf_eq_some] at h
    rcases planner_error_source O gr rv exp es qp tb priv gen _ h with
      ⟨_, hA⟩ | ⟨he, _⟩ | ⟨he, _⟩ | ⟨he, _⟩ | ⟨he, _⟩
    · exact hA
    · simp at he
    · simp at he
    · simp at he
    · rcases he with he | he | he | he <;> simp at he
  · intro hlt
    rw [errOf_eq_some]
    rw [planner_corr_case O gr rv exp es qp tb priv gen hlt]

/-- Witness for `C3_correlator_check`: a run with observed correlator `3`
and expected correlator `7/2` fails with `InsufficientCorrelation`. -/
theorem C3_correlator_check_witness :
    errOf (get_cqc_extractor_params stubO gr0 (19/20) (some (7/2)) 1 false
        true false none).1 = some PlannerError.insufficientCorrelation :=
  (C3_correlator_check stubO gr0 (19/20) (some (7/2)) 1 false true false
    none).mpr (by norm_num [gr0, pyOrQ])

/-- Counterexample to C3 as stated: with observed correlator `-1` and a
supplied `expected_correlator = 0`, the claim as stated predicts an
`InsufficientCorrelation` failure (the observed `-1` is strictly below the
supplied `0`), but the code treats the falsy supplied `0` as absent,
substitutes the observed value, and the run succeeds. -/
theorem C3_counterexample :
    grNeg.mermin_correlator < 0 ∧
    errOf (get_cqc_extractor_params stubO grNeg (19/20) (some 0) 1 false
        false false none).1 = none := by
  constructor
  · norm_num [grNeg]
  · norm_num [get_cqc_extractor_params, ext2_stage, pyOrQ, pySlice,
      plannerBits, plannerNumBits, plannerN, plannerDiff, plannerRate2,
      plannerRateBt, plannerOutputLen, stubO, grNeg, errOf]

/-- C4 (amended): `InvalidConfiguration` is raised iff the correlator check
passes (the observed correlator is not below the effective expected one)
and `privacy` is true while `trusted_backend` is false.  The correlator
guard at line 124 precedes the configuration guard at line 129, so with
both violated the run fails with `InsufficientCorrelation` instead. -/
theorem C4_invalid_configuration (O : Oracles) (gr : GeneratorResult)
    (rv : ℚ) (exp : Option ℚ) (es : ℚ) (qp tb priv : Bool)
    (gen : Option (ℤ → List ℤ)) :
    errOf (get_cqc_extractor_params O gr rv exp es qp tb priv gen).1
        = some PlannerError.invalidConfiguration
      ↔ (¬ gr.mermin_correlator < pyOrQ exp gr.mermin_correlator ∧
          priv = true ∧ tb = false) := by
  constructor
  · intro h
    rw [errOf_eq_some] at h
    rcases planner_error_source O gr rv exp es qp tb priv gen _ h with
      ⟨he, _⟩ | ⟨_, hA, hB⟩ | ⟨he, _⟩ | ⟨he, _⟩ | ⟨he, _⟩
    · simp at he
    · simp only [Bool.and_eq_true, Bool.not_eq_true'] at hB
      exact ⟨hA, hB.1, hB.2⟩
    · simp at he
    · simp at he
    · rcases he with he | he | he | he <;> simp at he
  · rintro ⟨hA, hp, ht⟩
    subst hp
    subst ht
    rw [errOf_eq_some]
    rw [planner_config_case O gr rv exp es qp false true gen hA rfl]

/-- Witness for `C4_invalid_configuration`: privacy requested on an
untrusted backend with a passing correlator check fails with
`InvalidConfiguration`. -/
theorem C4_invalid_configuration_witness :
    errOf (get_cqc_extractor_params stubO gr0 (19/20) none 1 false false
        true none).1 = some PlannerError.invalidConfiguration :=
  (C4_invalid_configuration stubO gr0 (19/20) none 1 false false true
    none).mpr ⟨by norm_num [gr0, pyOrQ], rfl, rfl⟩

/-- Counterexample to C4 as stated: with `privacy = true`,
`trusted_backend = false` and an observed correlator (`3`) below the
supplied expected one (`7/2`), the code raises `InsufficientCorrelation`,
not `InvalidConfiguration`: the configuration failure is not independent of
the correlator parameters. -/
theorem C4_counterexample :
    errOf (get_cqc_extractor_params stubO gr0 (19/20) (some (7/2)) 1 false
        false true none).1 = some PlannerError.insufficientCorrelation ∧
    ¬ errOf (get_cqc_extractor_params stubO gr0 (19/20) (some (7/2)) 1 false
        false true none).1 = some PlannerError.invalidConfiguration := by
  constructor
  · norm_num [get_cqc_extractor_params, pyOrQ, stubO, gr0, errOf]
  · norm_num [get_cqc_extractor_params, pyOrQ, stubO, gr0, errOf]
    decide

/-- C9: supplying `expected_correlator = 0` behaves exactly as if it were
`None`: Python's `or` at line 122 treats `0.0` as falsy, so the observed
`mermin_correlator` is substituted and used both in the correlator
validation and in the bias derivation, and the whole run (result and
collaborator-call trace) is identical to the run with no expected
correlator supplied. -/
theorem C9_zero_expected_like_none (O : Oracles) (gr : GeneratorResult)
    (rv es : ℚ) (qp tb priv : Bool) (gen : Option (ℤ → List ℤ)) :
    get_cqc_extractor_params O gr rv (some 0) es qp tb priv gen
      = get_cqc_extractor_params O gr rv none es qp tb priv gen := by
  have h : pyOrQ (some 0) gr.mermin_correlator
      = pyOrQ none gr.mermin_correlator := by
    simp [pyOrQ]
  simp only [get_cqc_extractor_params, h]

/-- Witness for `C9_zero_expected_like_none` at a concrete input. -/
theorem C9_zero_expected_like_none_witness :
    get_cqc_extractor_params stubO gr0 (19/20) (some 0) 1 false true false
        none
      = get_cqc_extractor_params stubO gr0 (19/20) none 1 false true false
        none :=
  C9_zero_expected_like_none stubO gr0 (19/20) 1 false true false none

/-- C10: the planner never mutates its receiver.  The Python method body
contains no assignment to any attribute of `self` (lines 122-192 bind only
local variables, and the slice at line 149 copies), so its state-passing
translation returns the receiver unchanged whatever the outcome: `wsr`,
`raw_bits_list`, the flattened `raw_bits` and the Bell triple are the
values stored at construction, and `bell_values` still returns the triple
computed once by `bell_value` at construction. -/
theorem C10_no_mutation (O : Oracles) (w raws : List (List ℤ)) (rv : ℚ)
    (exp : Option ℚ) (es : ℚ) (qp tb priv : Bool)
    (gen : Option (ℤ → List ℤ)) :
    (get_cqc_extractor_params_st O (GeneratorResult.init O w raws) rv exp es
        qp tb priv gen).2 = GeneratorResult.init O w raws ∧
    (get_cqc_extractor_params_st O (GeneratorResult.init O w raws) rv exp es
        qp tb priv gen).2.wsr = w ∧
    (get_cqc_extractor_params_st O (GeneratorResult.init O w raws) rv exp es
        qp tb priv gen).2.raw_bits_list = raws ∧
    (get_cqc_extractor_params_st O (GeneratorResult.init O w raws) rv exp es
        qp tb priv gen).2.raw_bits = raws.flatten ∧
    GeneratorResult.bell_values
        (get_cqc_extractor_params_st O (GeneratorResult.init O w raws) rv
          exp es qp tb priv gen).2
      = ((O.bell_value w raws).1, (O.bell_value w raws).2.1,
          (O.bell_value w raws).2.2) :=
  ⟨rfl, rfl, rfl, rfl, rfl⟩

/-- Witness for `C10_no_mutation` at a concrete input. -/
theorem C10_no_mutation_witness :
    (get_cqc_extractor_params_st stubO
        (GeneratorResult.init stubO [[0, 1]] [[1, 0, 1, 0], [1, 1, 0, 0]])
        (19/20) none 1 false true false none).2
      = GeneratorResult.init stubO [[0, 1]] [[1, 0, 1, 0], [1, 1, 0, 0]] :=
  (C10_no_mutation stubO [[0, 1]] [[1, 0, 1, 0], [1, 1, 0, 0]] (19/20) none
    1 false true false none).1

/-- C5: for every successfully produced bundle, `ext1_input_num_bits`
equals `SetSizeOracle(num_bits - 1) + 1` and — given the oracle contract
that the returned admissible size is nonnegative and at or below the
requested size — it is at most `num_bits`; the truncated bit sequence
passed to the byte encoder has exactly `ext1_input_num_bits` entries; and
whenever control reaches the self-consistency check and
`SetSizeOracle(n - 1) + 1 ≠ n` for the computed `n`, the planner fails with
`InternalInvariantViolation`. -/
theorem C5_first_stage_sizing (O : Oracles) (gr : GeneratorResult) (rv : ℚ)
    (exp : Option ℚ) (es : ℚ) (qp tb priv : Bool)
    (gen : Option (ℤ → List ℤ))
    (hub : O.na_set (plannerNumBits O gr - 1) ≤ plannerNumBits O gr - 1)
    (hnn : 0 ≤ O.na_set (plannerNumBits O gr - 1)) :
    (∀ v : ℤ,
      okExt1In (get_cqc_extractor_params O gr rv exp es qp tb priv gen).1
          = some v →
      v = O.na_set (plannerNumBits O gr - 1) + 1 ∧
        v ≤ plannerNumBits O gr) ∧
    (∀ l : List ℤ,
      (get_cqc_extractor_params O gr rv exp es qp tb priv gen).2.ext1BitsArg
          = some l →
      (l.length : ℤ) = plannerN O gr) ∧
    (¬ gr.mermin_correlator < pyOrQ exp gr.mermin_correlator →
      ¬ (priv && !tb) = true →
      O.na_set (plannerN O gr - 1) + 1 ≠ plannerN O gr →
      (get_cqc_extractor_params O gr rv exp es qp tb priv gen).1
        = .error .internalInvariantViolation) := by
  have e1 : plannerN O gr = O.na_set (plannerNumBits O gr - 1) + 1 := rfl
  have e2 : plannerNumBits O gr = ((plannerBits O gr).length : ℤ) := rfl
  refine ⟨?_, ?_, ?_⟩
  · intro v hv
    rw [okExt1In_eq_some] at hv
    obtain ⟨b, hb, hfield⟩ := hv
    obtain ⟨_, _, _, _, h1, _, _⟩ :=
      planner_ok_source O gr rv exp es qp tb priv gen b hb
    constructor
    · rw [← hfield, h1, e1]
    · rw [← hfield, h1]
      omega
  · intro l hl
    have hbits := planner_bitsArg O gr rv exp es qp tb priv gen l hl
    rw [hbits]
    exact pySlice_length (plannerBits O gr) (plannerN O gr) (by omega)
      (by omega)
  · intro hA hB hC
    rw [planner_invariant_case O gr rv exp es qp tb priv gen hA hB hC]

/-- Witness for `C5_first_stage_sizing`: on the identity set-size stub and
eight raw bits the bundle reports `ext1_input_num_bits = 8 = na_set(7)+1`,
within the batch size. -/
theorem C5_first_stage_sizing_witness :
    okExt1In (get_cqc_extractor_params stubO gr0 (19/20) none 1 false false
        false none).1 = some 8 ∧
    ((8 : ℤ) = stubO.na_set (plannerNumBits stubO gr0 - 1) + 1 ∧
      (8 : ℤ) ≤ plannerNumBits stubO gr0) := by
  have hok : okExt1In (get_cqc_extractor_params stubO gr0 (19/20) none 1
      false false false none).1 = some 8 := by
    norm_num [get_cqc_extractor_params, ext2_stage, pyOrQ, pySlice,
      plannerBits, plannerNumBits, plannerN, plannerDiff, plannerRate2,
      plannerRateBt, plannerOutputLen, stubO, gr0, okExt1In]
  refine ⟨hok, ?_⟩
  exact (C5_first_stage_sizing stubO gr0 (19/20) none 1 false false false
    none (by norm_num [stubO, plannerNumBits, plannerBits, gr0])
    (by norm_num [stubO, plannerNumBits, plannerBits, gr0])).1 8 hok

/-- C6: `InsufficientOutput` is raised exactly when the first-stage output
length returned by the output-size oracle is below `50` (the forward
direction holds for every run, the converse for every run that reaches the
output computation), and consequently every successfully produced bundle
has `ext1_output_num_bits ≥ 50`. -/
theorem C6_insufficient_output (O : Oracles) (gr : GeneratorResult)
    (rv : ℚ) (exp : Option ℚ) (es : ℚ) (qp tb priv : Bool)
    (gen : Option (ℤ → List ℤ)) :
    ((get_cqc_extractor_params O gr rv exp es qp tb priv gen).1
        = .error .insufficientOutput →
      plannerOutputLen O gr rv (pyOrQ exp gr.mermin_correlator) es qp
        < 50) ∧
    (¬ gr.mermin_correlator < pyOrQ exp gr.mermin_correlator →
      ¬ (priv && !tb) = true →
      O.na_set (plannerN O gr - 1) + 1 = plannerN O gr →
      plannerOutputLen O gr rv (pyOrQ exp gr.mermin_correlator) es qp
          < 50 →
      (get_cqc_extractor_params O gr rv exp es qp tb priv gen).1
        = .error .insufficientOutput) ∧
    (∀ v : ℤ,
      okExt1Out (get_cqc_extractor_params O gr rv exp es qp tb priv gen).1
          = some v →
      50 ≤ v) := by
  refine ⟨?_, ?_, ?_⟩
  · intro h
    rcases planner_error_source O gr rv exp es qp tb priv gen _ h with
      ⟨he, _⟩ | ⟨he, _⟩ | ⟨he, _⟩ | ⟨_, _, _, _, hD⟩ | ⟨he, _⟩
    · simp at he
    · simp at he
    · simp at he
    · exact hD
    · rcases he with he | he | he | he <;> simp at he
  · intro hA hB hC hD
    rw [planner_output_case O gr rv exp es qp tb priv gen hA hB hC hD]
  · intro v hv
    rw [okExt1Out_eq_some] at hv
    obtain ⟨b, hb, hfield⟩ := hv
    obtain ⟨_, _, _, hD, _, hout, _⟩ :=
      planner_ok_source O gr rv exp es qp tb priv gen b hb
    rw [← hfield, hout]
    omega

/-- Witness for `C6_insufficient_output`: a successful run on the stub
whose output-size oracle returns `100` reports at least `50` output bits. -/
theorem C6_insufficient_output_witness :
    okExt1Out (get_cqc_extractor_params stubO gr0 (19/20) none 1 false false
        false none).1 = some 100 ∧ (50 : ℤ) ≤ 100 := by
  have hok : okExt1Out (get_cqc_extractor_params stubO gr0 (19/20) none 1
      false false false none).1 = some 100 := by
    norm_num [get_cqc_extractor_params, ext2_stage, pyOrQ, pySlice,
      plannerBits, plannerNumBits, plannerN, plannerDiff, plannerRate2,
      plannerRateBt, plannerOutputLen, stubO, gr0, okExt1Out]
  exact ⟨hok, (C6_insufficient_output stubO gr0 (19/20) none 1 false false
    false none).2.2 100 hok⟩

/-- C7: the entropy-rate correction passed to the output-size oracle after
truncation equals `(num_bits * rate_bt - dropped) / (num_bits - dropped)`
with `dropped = num_bits - n`, where `rate_bt` is the estimator's rate on
the untruncated batch and `n = SetSizeOracle(num_bits - 1) + 1`; the
denominator equals the first-stage input size `n`. -/
theorem C7_rate_correction (O : Oracles) (gr : GeneratorResult) (rv : ℚ)
    (exp : Option ℚ) (es : ℚ) (qp tb priv : Bool)
    (gen : Option (ℤ → List ℤ)) :
    ∀ r : ℚ,
      (get_cqc_extractor_params O gr rv exp es qp tb priv gen).2.dodisRateArg
          = some r →
      r = ((plannerNumBits O gr : ℚ)
              * plannerRateBt O gr rv (pyOrQ exp gr.mermin_correlator)
            - ((plannerNumBits O gr - plannerN O gr : ℤ) : ℚ))
          / ((plannerNumBits O gr : ℚ)
            - ((plannerNumBits O gr - plannerN O gr : ℤ) : ℚ)) ∧
      (plannerNumBits O gr : ℚ)
          - ((plannerNumBits O gr - plannerN O gr : ℤ) : ℚ)
        = (plannerN O gr : ℚ) := by
  intro r hr
  have h := planner_rateArg O gr rv exp es qp tb priv gen r hr
  constructor
  · rw [h]
    rfl
  · push_cast
    ring

/-- Witness for `C7_rate_correction`: on the stub run the recorded rate is
`9/10 = (8*(9/10) - 0)/(8 - 0)` with denominator `8 = n`. -/
theorem C7_rate_correction_witness :
    (get_cqc_extractor_params stubO gr0 (19/20) none 1 false false false
        none).2.dodisRateArg = some (9/10) ∧
    ((9/10 : ℚ) = ((plannerNumBits stubO gr0 : ℚ)
            * plannerRateBt stubO gr0 (19/20)
              (pyOrQ none gr0.mermin_correlator)
          - ((plannerNumBits stubO gr0 - plannerN stubO gr0 : ℤ) : ℚ))
        / ((plannerNumBits stubO gr0 : ℚ)
          - ((plannerNumBits stubO gr0 - plannerN stubO gr0 : ℤ) : ℚ)) ∧
      (plannerNumBits stubO gr0 : ℚ)
          - ((plannerNumBits stubO gr0 - plannerN stubO gr0 : ℤ) : ℚ)
        = (plannerN stubO gr0 : ℚ)) := by
  have hr : (get_cqc_extractor_params stubO gr0 (19/20) none 1 false false
      false none).2.dodisRateArg = some (9/10) := by
    norm_num [get_cqc_extractor_params, ext2_stage, pyOrQ, pySlice,
      plannerBits, plannerNumBits, plannerN, plannerDiff, plannerRate2,
      plannerRateBt, plannerOutputLen, stubO, gr0]
  exact ⟨hr, C7_rate_correction stubO gr0 (19/20) none 1 false false false
    none (9/10) hr⟩

/-- C1 (amended): in a second-stage run that reaches the bounded search,
the planner invokes the security-parameter oracle at most
`max_search_steps = c_max` times, with cursor values `0, 1, 2, ...`; and
for every stub oracle whose achieved epsilon never meets the tolerance,
provided the tolerance `epsilon_sec / 2` is below the loop's initial
epsilon value `1`, the call fails with `InvalidSecurityParameters` after
exactly `max_search_steps` oracle invocations. -/
theorem C1_bounded_search (O : Oracles) (gr : GeneratorResult) (rv : ℚ)
    (exp : Option ℚ) (es : ℚ) (qp : Bool) (gen : Option (ℤ → List ℤ))
    (hA : ¬ gr.mermin_correlator < pyOrQ exp gr.mermin_correlator)
    (hC : O.na_set (plannerN O gr - 1) + 1 = plannerN O gr)
    (hD : ¬ plannerOutputLen O gr rv (pyOrQ exp gr.mermin_correlator) es qp
      < 50)
    (hrv : rv ≤ 1) (h0 : tem rv ≠ 0)
    (hL : ¬ 5 * 10 ^ 8 < O.na_set
      (plannerOutputLen O gr rv (pyOrQ exp gr.mermin_correlator) es qp)) :
    ((get_cqc_extractor_params O gr rv exp es qp true false
          gen).2.hayashiCursors
        = (List.range (get_cqc_extractor_params O gr rv exp es qp true false
            gen).2.hayashiCursors.length).map (fun j : ℕ => (j : ℤ)) ∧
      (((get_cqc_extractor_params O gr rv exp es qp true false
          gen).2.hayashiCursors.length : ℤ)) ≤ c_max rv) ∧
    ((∀ cur : ℤ,
        ¬ (O.hayashi_parameters
            (O.na_set (plannerOutputLen O gr rv
              (pyOrQ exp gr.mermin_correlator) es qp))
            rv (c_max rv) cur).2 ≤ es / 2) →
      es / 2 < 1 →
      (get_cqc_extractor_params O gr rv exp es qp true false gen).1
          = .error .invalidSecurityParameters ∧
        (((get_cqc_extractor_params O gr rv exp es qp true false
            gen).2.hayashiCursors.length : ℤ)) = c_max rv) := by
  have hB : ¬ ((false : Bool) && !(true : Bool)) = true := by simp
  have hG : ((true : Bool) && !(false : Bool)) = true := rfl
  have hcmax : 0 ≤ c_max rv := c_max_nonneg hrv h0
  have hcur : (get_cqc_extractor_params O gr rv exp es qp true false
      gen).2.hayashiCursors
      = (hayashiSearch O.hayashi_parameters
          (O.na_set (plannerOutputLen O gr rv
            (pyOrQ exp gr.mermin_correlator) es qp))
          rv (c_max rv) (es / 2) ((c_max rv).toNat + 1) 0 0 1).2 :=
    (planner_main_snd O gr rv exp es qp true false gen hA hB hC hD).trans
      (ext2_stage_search_snd O rv (es / 2) _ true false hG h0 hL)
  constructor
  · constructor
    · obtain ⟨k, hk⟩ := hayashiSearch_cursors O.hayashi_parameters
        (O.na_set (plannerOutputLen O gr rv
          (pyOrQ exp gr.mermin_correlator) es qp))
        rv (c_max rv) (es / 2) ((c_max rv).toNat + 1) 0 0 1
      rw [hcur, hk]
      simp
    · rw [hcur]
      have := hayashiSearch_length_le O.hayashi_parameters
        (O.na_set (plannerOutputLen O gr rv
          (pyOrQ exp gr.mermin_correlator) es qp))
        rv (c_max rv) (es / 2) ((c_max rv).toNat + 1) 0 0 1 hcmax
      omega
  · intro hnever htol
    have hex := hayashiSearch_exhausts O.hayashi_parameters
      (O.na_set (plannerOutputLen O gr rv
        (pyOrQ exp gr.mermin_correlator) es qp))
      rv (c_max rv) (es / 2) hnever ((c_max rv).toNat + 1) 0 0 1 hcmax
      (by omega) (not_le.mpr htol)
    refine ⟨?_, ?_⟩
    · exact planner_main_err O gr rv exp es qp true false gen hA hB hC hD _
        (ext2_stage_search_err O rv (es / 2) _ true false hG h0 hL _ hex.1)
    · rw [hcur]
      have := hex.2
      omega

/-- Witness for `C1_bounded_search`: on `stubNever` (achieved epsilon
always `2`) with `rate_sv = 19/20` (so `max_search_steps = 20`) and
`epsilon_sec = 1`, the run fails with `InvalidSecurityParameters` after
exactly `20` oracle calls. -/
theorem C1_bounded_search_witness :
    (get_cqc_extractor_params stubNever gr0 (19/20) none 1 false true false
        none).1 = .error .invalidSecurityParameters ∧
    (((get_cqc_extractor_params stubNever gr0 (19/20) none 1 false true
        false none).2.hayashiCursors.length : ℤ)) = 20 := by
  obtain ⟨h1, h2⟩ := (C1_bounded_search stubNever gr0 (19/20) none 1 false
    none
    (by norm_num [gr0, pyOrQ])
    (by norm_num [stubNever, plannerN, plannerNumBits, plannerBits, gr0])
    (by norm_num [plannerOutputLen, stubNever])
    (by norm_num)
    (by norm_num [tem, pyRound])
    (by norm_num [stubNever, plannerOutputLen])).2
    (fun cur => by norm_num [stubNever])
    (by norm_num)
  exact ⟨h1, h2.trans (by norm_num [c_max, tem, pyRound])⟩

/-- Counterexample to C1 as stated: with `epsilon_sec = 2` the tolerance
`epsilon_2_tolerance = 1` is already met by the search loop's initial
epsilon value `1`, so even under a stub oracle that never meets the
tolerance (`stubNever` always reports achieved epsilon `2`, and
`2 ≤ 1` fails, third conjunct) the search performs zero oracle calls and
the run succeeds, instead of failing with `InvalidSecurityParameters`
after `max_search_steps = 20` invocations as the claim predicts. -/
theorem C1_counterexample :
    errOf (get_cqc_extractor_params stubNever gr0 (19/20) none 2 false true
        false none).1 = none ∧
    (get_cqc_extractor_params stubNever gr0 (19/20) none 2 false true false
        none).2.hayashiCursors = [] ∧
    ¬ ((stubNever.hayashi_parameters 100 (19/20) 20 0).2 ≤ 2 / 2) := by
  refine ⟨?_, ?_, by norm_num [stubNever]⟩ <;>
    norm_num [get_cqc_extractor_params, ext2_stage, hayashiSearch, pyOrQ,
      pySlice, pyRound, tem, c_max, plannerBits, plannerNumBits, plannerN,
      plannerDiff, plannerRate2, plannerRateBt, plannerOutputLen, stubNever,
      gr0, errOf]

/-- C2 (amended): for every successfully returned bundle, if the backend
is untrusted or privacy is requested then both second-stage fields are
`0`; otherwise (trusted backend, no privacy), provided the
security-parameter oracle contract (its multipliers are strictly
positive), the set-size oracle contract (admissible sizes are strictly
positive), and `epsilon_sec < 2` — so the loop's initial epsilon `1`
exceeds the tolerance and the search queries the oracle at least once —
both second-stage fields are strictly positive. -/
theorem C2_second_stage_fields (O : Oracles) (gr : GeneratorResult)
    (rv : ℚ) (exp : Option ℚ) (es : ℚ) (qp tb priv : Bool)
    (gen : Option (ℤ → List ℤ)) :
    ∀ s m : ℤ,
      okExt2Seed (get_cqc_extractor_params O gr rv exp es qp tb priv
          gen).1 = some s →
      okExt2Mul (get_cqc_extractor_params O gr rv exp es qp tb priv
          gen).1 = some m →
      ((tb = false ∨ priv = true) → s = 0 ∧ m = 0) ∧
      ((∀ a b c d, 0 < (O.hayashi_parameters a b c d).1) →
        (∀ x, 0 < O.na_set x) →
        es < 2 → tb = true → priv = false →
        0 < s ∧ 0 < m) := by
  intro s m hs hm
  rw [okExt2Seed_eq_some] at hs
  obtain ⟨b, hb, hbs⟩ := hs
  rw [okExt2Mul_eq_some] at hm
  obtain ⟨b2, hb2, hbm⟩ := hm
  rw [hb] at hb2
  injection hb2 with hbb
  subst hbb
  obtain ⟨hA, hB, hC, hD, _, _, pr, hpr, hseed, hmul⟩ :=
    planner_ok_source O gr rv exp es qp tb priv gen b hb
  constructor
  · intro hoff
    have hGf : (tb && !priv) = false := by
      rcases hoff with h | h <;> simp [h]
    rw [ext2_stage_off O rv (es / 2) _ tb priv (by simp [hGf])] at hpr
    simp only [Prod.fst] at hpr
    injection hpr with h'
    constructor
    · rw [← hbs, hseed, ← h']
    · rw [← hbm, hmul, ← h']
  · intro hmulpos hnapos hes htb hpriv
    subst htb
    subst hpriv
    have hG : ((true : Bool) && !(false : Bool)) = true := rfl
    by_cases h0 : tem rv = 0
    · exfalso
      rw [ext2_stage_zeroDiv O rv (es / 2) _ true false hG h0] at hpr
      simp at hpr
    · by_cases hLL : 5 * 10 ^ 8 < O.na_set
          (plannerOutputLen O gr rv (pyOrQ exp gr.mermin_correlator) es qp)
      · exfalso
        rw [ext2_stage_tooLarge O rv (es / 2) _ true false hG h0 hLL] at hpr
        simp at hpr
      · rcases hr : (hayashiSearch O.hayashi_parameters
            (O.na_set (plannerOutputLen O gr rv
              (pyOrQ exp gr.mermin_correlator) es qp))
            rv (c_max rv) (es / 2) ((c_max rv).toNat + 1) 0 0 1).1
          with e | c
        · exfalso
          rw [ext2_stage_search_err O rv (es / 2) _ true false hG h0 hLL e
            hr] at hpr
          simp at hpr
        · rw [ext2_stage_search_ok O rv (es / 2) _ true false hG h0 hLL c
            hr] at hpr
          injection hpr with h'
          rcases hayashiSearch_ok O.hayashi_parameters
              (O.na_set (plannerOutputLen O gr rv
                (pyOrQ exp gr.mermin_correlator) es qp))
              rv (c_max rv) (es / 2) ((c_max rv).toNat + 1) 0 0 1 c hr with
            ⟨_, h1⟩ | ⟨q, hq⟩
          · exfalso
            have : (1 : ℚ) ≤ es / 2 := h1
            linarith
          · constructor
            · rw [← hbs, hseed, ← h']
              exact hnapos _
            · rw [← hbm, hmul, ← h', hq]
              exact hmulpos _ _ _ _

/-- Witness for `C2_second_stage_fields`: on `stubPos` (positive set-size
and multiplier oracles) with trusted backend, no privacy and
`epsilon_sec = 1`, the returned bundle has second-stage fields
`(100, 5)`, both strictly positive. -/
theorem C2_second_stage_fields_witness :
    okExt2Seed (get_cqc_extractor_params stubPos gr0 (19/20) none 1 false
        true false none).1 = some 100 ∧
    okExt2Mul (get_cqc_extractor_params stubPos gr0 (19/20) none 1 false
        true false none).1 = some 5 ∧
    (0 : ℤ) < 100 ∧ (0 : ℤ) < 5 := by
  have hs : okExt2Seed (get_cqc_extractor_params stubPos gr0 (19/20) none 1
      false true false none).1 = some 100 := by
    norm_num [get_cqc_extractor_params, ext2_stage, hayashiSearch, pyOrQ,
      pySlice, pyRound, tem, c_max, plannerBits, plannerNumBits, plannerN,
      plannerDiff, plannerRate2, plannerRateBt, plannerOutputLen, stubPos,
      gr0, okExt2Seed]
  have hm : okExt2Mul (get_cqc_extractor_params stubPos gr0 (19/20) none 1
      false true false none).1 = some 5 := by
    norm_num [get_cqc_extractor_params, ext2_stage, hayashiSearch, pyOrQ,
      pySlice, pyRound, tem, c_max, plannerBits, plannerNumBits, plannerN,
      plannerDiff, plannerRate2, plannerRateBt, plannerOutputLen, stubPos,
      gr0, okExt2Mul]
  have hpos := (C2_second_stage_fields stubPos gr0 (19/20) none 1 false
    true false none 100 5 hs hm).2
    (fun a b c d => by norm_num [stubPos])
    (fun x => by simp only [stubPos]; split <;> omega)
    (by norm_num) rfl rfl
  exact ⟨hs, hm, hpos.1, hpos.2⟩

/-- Counterexample to C2 as stated: with `epsilon_sec = 3` the tolerance
`3/2` is met by the loop's initial epsilon `1` before any oracle call, so
the run returns a bundle with `ext2_seed_num_bits = 100 > 0` but
`ext2_wsr_multiplier = 0` — not both strictly positive — even though the
backend is trusted, privacy is off, and the stub's security-parameter
oracle only ever returns the positive multiplier `5`. -/
theorem C2_counterexample :
    okExt2Seed (get_cqc_extractor_params stubPos gr0 (19/20) none 3 false
        true false none).1 = some 100 ∧
    okExt2Mul (get_cqc_extractor_params stubPos gr0 (19/20) none 3 false
        true false none).1 = some 0 := by
  constructor <;>
    norm_num [get_cqc_extractor_params, ext2_stage, hayashiSearch, pyOrQ,
      pySlice, pyRound, tem, c_max, plannerBits, plannerNumBits, plannerN,
      plannerDiff, plannerRate2, plannerRateBt, plannerOutputLen, stubPos,
      gr0, okExt2Seed, okExt2Mul]

/-- C8 (amended): for `assumed_source_rate` in `(0, 1]` whose rounded
complement `tem` is nonzero, with a trusted backend and no privacy, the
planner terminates in one of the specified terminal states: it never
raises `ZeroDivisionError`, and the bounded search always terminates
within its structural fuel (no `nonTermination`).  (When `tem = 0` — in
particular at `assumed_source_rate = 1` — the division `1 / tem` raises
`ZeroDivisionError`; see the counterexample.) -/
theorem C8_terminal_states (O : Oracles) (gr : GeneratorResult) (rv : ℚ)
    (exp : Option ℚ) (es : ℚ) (qp : Bool) (gen : Option (ℤ → List ℤ))
    (h01 : 0 < rv) (h1 : rv ≤ 1) (hz : tem rv ≠ 0) :
    errOf (get_cqc_extractor_params O gr rv exp es qp true false gen).1
        ≠ some PlannerError.zeroDivisionError ∧
    errOf (get_cqc_extractor_params O gr rv exp es qp true false gen).1
        ≠ some PlannerError.nonTermination := by
  have hcmax : 0 ≤ c_max rv := c_max_nonneg h1 hz
  have key : ∀ e : PlannerError,
      (get_cqc_extractor_params O gr rv exp es qp true false gen).1
        = .error e →
      e = .insufficientCorrelation ∨ e = .invalidConfiguration ∨
        e = .internalInvariantViolation ∨ e = .insufficientOutput ∨
        e = .inputTooLarge ∨ e = .invalidSecurityParameters := by
    intro e h
    rcases planner_error_source O gr rv exp es qp true false gen _ h with
      ⟨he, _⟩ | ⟨he, _⟩ | ⟨he, _⟩ | ⟨he, _⟩ | ⟨_, _, _, _, _, he2⟩
    · exact Or.inl he
    · exact Or.inr (Or.inl he)
    · exact Or.inr (Or.inr (Or.inl he))
    · exact Or.inr (Or.inr (Or.inr (Or.inl he)))
    · have hG : ((true : Bool) && !(false : Bool)) = true := rfl
      by_cases hLL : 5 * 10 ^ 8 < O.na_set
          (plannerOutputLen O gr rv (pyOrQ exp gr.mermin_correlator) es qp)
      · rw [ext2_stage_tooLarge O rv (es / 2) _ true false hG hz hLL] at he2
        simp only [Prod.fst] at he2
        injection he2 with h'
        exact Or.inr (Or.inr (Or.inr (Or.inr (Or.inl h'.symm))))
      · rcases hr : (hayashiSearch O.hayashi_parameters
            (O.na_set (plannerOutputLen O gr rv
              (pyOrQ exp gr.mermin_correlator) es qp))
            rv (c_max rv) (es / 2) ((c_max rv).toNat + 1) 0 0 1).1
          with e' | c
        · rw [ext2_stage_search_err O rv (es / 2) _ true false hG hz hLL e'
            hr] at he2
          injection he2 with h'
          rcases hayashiSearch_error_cases O.hayashi_parameters
              (O.na_set (plannerOutputLen O gr rv
                (pyOrQ exp gr.mermin_correlator) es qp))
              rv (c_max rv) (es / 2) ((c_max rv).toNat + 1) 0 0 1 e' hr
            with h2 | h2
          · exact Or.inr (Or.inr (Or.inr (Or.inr (Or.inr
              (h'.symm.trans h2)))))
          · exfalso
            rw [h2] at hr
            exact hayashiSearch_no_exhaustion O.hayashi_parameters
              (O.na_set (plannerOutputLen O gr rv
                (pyOrQ exp gr.mermin_correlator) es qp))
              rv (c_max rv) (es / 2) ((c_max rv).toNat + 1) 0 0 1 hcmax
              (by omega) hr
        · rw [ext2_stage_search_ok O rv (es / 2) _ true false hG hz hLL c
            hr] at he2
          simp at he2
  constructor
  · intro hcontra
    rw [errOf_eq_some] at hcontra
    rcases key _ hcontra with h | h | h | h | h | h <;> simp at h
  · intro hcontra
    rw [errOf_eq_some] at hcontra
    rcases key _ hcontra with h | h | h | h | h | h <;> simp at h

/-- Witness for `C8_terminal_states` at `rate_sv = 19/20`. -/
theorem C8_terminal_states_witness :
    errOf (get_cqc_extractor_params stubO gr0 (19/20) none 1 false true
        false none).1 ≠ some PlannerError.zeroDivisionError ∧
    errOf (get_cqc_extractor_params stubO gr0 (19/20) none 1 false true
        false none).1 ≠ some PlannerError.nonTermination :=
  C8_terminal_states stubO gr0 (19/20) none 1 false none (by norm_num)
    (by norm_num) (by norm_num [tem, pyRound])

/-- Counterexample to C8 as stated: at `assumed_source_rate = 1` (which is
in the claimed domain `(0, 1]`) with a trusted backend and no privacy, the
rounded complement rate is `0` and the computation of `max_search_steps`
divides by zero: the run terminates with Python's `ZeroDivisionError`,
which is neither the bundle nor any of the six specified error kinds. -/
theorem C8_counterexample :
    errOf (get_cqc_extractor_params stubO gr0 1 none 1 false true false
        none).1 = some PlannerError.zeroDivisionError := by
  norm_num [get_cqc_extractor_params, ext2_stage, pyOrQ, pySlice, pyRound,
    tem, plannerBits, plannerNumBits, plannerN, plannerDiff, plannerRate2,
    plannerRateBt, plannerOutputLen, stubO, gr0, errOf]

end QiskitRng

